import Mathlib

/-!
Shallow embedding of the Punjab smog ingestion pipeline
(`main_sql.py`, `locations.py`) and of the dashboard's wind-direction
bucketing (`app.py`, `add_wind_cardinals`).

Numeric values that are Python floats are modelled as rationals (ℚ);
timestamps are modelled as natural numbers counting seconds, so that
flooring to the hour is subtraction of the remainder modulo 3600.
Every external HTTP call is modelled by an oracle argument describing
the response the provider would give: `none` stands for any failure the
Python code catches (exception, timeout, non-200 status, malformed or
absent payload), and `some v` for a successfully parsed payload `v`.
The primary wind provider is modelled as a stream `Nat → _` of the
responses successive requests would receive, so that the absence or
presence of retries is observable in the embedding: the code under
`fetch_city_data` issues exactly one request, hence reads index 0 only.
-/

/-- One satellite hotspot detection, as parsed from the fire feed CSV
(fields used by the code: latitude, longitude, confidence, frp).
The confidence flag is the raw CSV string; the upstream feed uses
"l" (low), "n" (nominal), "h" (high). -/
structure FireDetection where
  latitude : ℚ
  longitude : ℚ
  confidence : String
  frp : ℚ
deriving DecidableEq

/-- Response of the fire feed: `none` models any fetch or parse failure,
`some df` a successfully parsed table of detections. -/
abbrev FiresResp := Option (List FireDetection)

/-- Response of the particulate provider (air_pollution endpoint):
`none` models failure / non-200 / malformed body; `some (p25, p10)` a 200
response whose components object carries the two values (each possibly
JSON null, hence `Option`). -/
abbrev ParticulateResp := Option (Option ℚ × Option ℚ)

/-- Response of the primary wind provider (OpenMeteo): `none` models
failure / non-200 / missing current-conditions object; `some (s, d)` a
200 response with a current object whose wind_speed_10m and
wind_direction_10m values are `s` and `d` (each possibly JSON null or
absent, hence `Option`). -/
abbrev PrimaryWindResp := Option (Option ℚ × Option ℚ)

/-- Response of the secondary wind provider (OpenWeatherMap weather
endpoint): `none` models failure / non-200; `some (s, d)` a 200 response
with wind speed `s` in m/s and direction `d` in degrees. -/
abbrev SecondaryWindResp := Option (ℚ × ℚ)

/-- One row of the batch, as assembled by `fetch_city_data` (a Python
dict). Fields that the Python code may leave as `None` are `Option ℚ`;
`wind_speed` and `wind_dir` are also `Option ℚ` because the Python
variables can hold `None` before the final safety net runs — that they
are never `none` in a returned row is a theorem, not a typing artifact. -/
structure Row where
  timestamp : Nat
  district : String
  pm2_5 : Option ℚ
  pm10 : Option ℚ
  wind_speed : Option ℚ
  wind_dir : Option ℚ
  provincial_fire_load : ℚ
  local_fire_count : Nat
  local_fire_frp : ℚ
deriving DecidableEq

/-- Embeds `get_provincial_fires` (main_sql.py, lines 21-31): on success
the detections whose confidence flag is not the low flag "l" are kept;
on any failure an empty table is returned. -/
def get_provincial_fires (resp : FiresResp) : List FireDetection :=
  match resp with
  | some df => df.filter fun f => !(f.confidence == "l")
  | none => []

/-- Embeds `calculate_local_impact` (main_sql.py, lines 34-50): if the
fire table is empty return (0, 0); otherwise keep the fires inside the
±0.5 degree axis-aligned box around the city and return their count and
summed frp. -/
def calculate_local_impact (city_lat city_lon : ℚ) (all_fires_df : List FireDetection) :
    Nat × ℚ :=
  if all_fires_df.isEmpty then (0, 0)
  else
    let lat_min := city_lat - 1/2
    let lat_max := city_lat + 1/2
    let lon_min := city_lon - 1/2
    let lon_max := city_lon + 1/2
    let local_fires := all_fires_df.filter fun f =>
      decide (lat_min ≤ f.latitude ∧ f.latitude ≤ lat_max ∧
              lon_min ≤ f.longitude ∧ f.longitude ≤ lon_max)
    (local_fires.length, (local_fires.map FireDetection.frp).sum)

/-- Outcome of the dual-source wind section of `fetch_city_data`
(main_sql.py, lines 72-112): the wind speed and direction variables
after both sources have been tried, plus whether the secondary request
was issued at all (the `if wind_spd is None:` block was entered). -/
structure WindResult where
  spd : Option ℚ
  dir : Option ℚ
  secondaryConsulted : Bool
deriving DecidableEq

/-- Embeds the wind section of `fetch_city_data` (main_sql.py, lines
72-112). The primary provider is a stream of responses to successive
requests; the code issues exactly one request, so only index 0 is read.
If the primary attempt leaves the speed unset, the secondary provider is
consulted: on its success the speed is converted m/s → km/h (times 3.6)
and the direction overwritten; on its failure both variables keep the
values the primary attempt left. -/
def windFetch (omResp : Nat → PrimaryWindResp) (owmResp : SecondaryWindResp) : WindResult :=
  let pd : Option ℚ × Option ℚ :=
    match omResp 0 with
    | some sd => sd
    | none => (none, none)
  if pd.1 = none then
    match owmResp with
    | some (s, d) => { spd := some (s * 3.6), dir := some d, secondaryConsulted := true }
    | none => { spd := pd.1, dir := pd.2, secondaryConsulted := true }
  else { spd := pd.1, dir := pd.2, secondaryConsulted := false }

/-- Embeds `fetch_city_data` (main_sql.py, lines 53-133): local fire
stats, particulates (both left null on any failure of the single call),
the dual-source wind section, the final safety net replacing an unset
wind speed or direction by 0.0, and the assembled row stamped with the
current wall-clock time `now`. -/
def fetch_city_data (city_name : String) (lat lon : ℚ) (all_fires_df : List FireDetection)
    (provincial_load : ℚ) (now : Nat) (owResp : ParticulateResp)
    (omResp : Nat → PrimaryWindResp) (owmResp : SecondaryWindResp) : Row :=
  let li := calculate_local_impact lat lon all_fires_df
  let pm : Option ℚ × Option ℚ :=
    match owResp with
    | some pq => pq
    | none => (none, none)
  let w := windFetch omResp owmResp
  { timestamp := now
    district := city_name
    pm2_5 := pm.1
    pm10 := pm.2
    wind_speed := if w.spd = none then some 0 else w.spd
    wind_dir := if w.dir = none then some 0 else w.dir
    provincial_fire_load := provincial_load
    local_fire_count := li.1
    local_fire_frp := li.2 }

/-- Embeds the `DISTRICTS` registry (locations.py): 42 districts, each
with its centroid coordinates, in insertion order. -/
def DISTRICTS : List (String × ℚ × ℚ) :=
  [("Islamabad", 33.6844, 73.0479),
   ("Rawalpindi", 33.5651, 73.0169),
   ("Attock", 33.7660, 72.3609),
   ("Chakwal", 32.9328, 72.8548),
   ("Jhelum", 32.9405, 73.7276),
   ("Murree", 33.9070, 73.3943),
   ("Talagang", 32.9297, 72.4146),
   ("Gujranwala", 32.1603, 74.1883),
   ("Sialkot", 32.4945, 74.5229),
   ("Narowal", 32.0998, 74.8744),
   ("Gujrat", 32.5738, 74.0802),
   ("Hafizabad", 32.0679, 73.6851),
   ("Mandi Bahauddin", 32.5870, 73.4912),
   ("Wazirabad", 32.4432, 74.1200),
   ("Lahore", 31.5204, 74.3587),
   ("Kasur", 31.1187, 74.4507),
   ("Sheikhupura", 31.7131, 73.9783),
   ("Nankana Sahib", 31.4492, 73.7124),
   ("Faisalabad", 31.4504, 73.1350),
   ("Jhang", 31.2780, 72.3118),
   ("Toba Tek Singh", 30.9709, 72.4827),
   ("Chiniot", 31.7200, 72.9789),
   ("Sargodha", 32.0836, 72.6711),
   ("Khushab", 32.2952, 72.3489),
   ("Mianwali", 32.5839, 71.5370),
   ("Bhakkar", 31.6252, 71.0657),
   ("Sahiwal", 30.6682, 73.1114),
   ("Okara", 30.8090, 73.4508),
   ("Pakpattan", 30.3432, 73.3894),
   ("Multan", 30.1575, 71.5249),
   ("Khanewal", 30.3017, 71.9321),
   ("Lodhran", 29.5467, 71.6276),
   ("Vehari", 30.0333, 72.3500),
   ("Dera Ghazi Khan", 30.0489, 70.6455),
   ("Rajanpur", 29.1035, 70.3250),
   ("Muzaffargarh", 30.0754, 71.1921),
   ("Layyah", 30.9613, 70.9390),
   ("Kot Addu", 30.4735, 70.9664),
   ("Taunsa", 30.7048, 70.6505),
   ("Bahawalpur", 29.3544, 71.6911),
   ("Bahawalnagar", 29.9987, 73.2536),
   ("Rahim Yar Khan", 28.4212, 70.2989)]

/-- The environment of one pipeline cycle: the responses every external
call would receive, and the wall clock. Per-district responses and
clock readings are indexed by the district name (the registry's unique
key). -/
structure PipelineEnv where
  firesResp : FiresResp
  owResp : String → ParticulateResp
  omResp : String → Nat → PrimaryWindResp
  owmResp : String → SecondaryWindResp
  now : String → Nat

/-- The province-wide fire load scalar computed once per cycle
(main_sql.py, line 141): the frp sum over the fetched fire table, or 0
when it is empty. -/
def provincial_load_of (all_fires_df : List FireDetection) : ℚ :=
  if all_fires_df.isEmpty then 0 else (all_fires_df.map FireDetection.frp).sum

/-- Embeds the batch-collection phase of `run_pipeline` (main_sql.py,
lines 140-152): fetch provincial fires once, compute the provincial
load once, then append one `fetch_city_data` row per registry district
in insertion order. -/
def run_pipeline_batch (env : PipelineEnv) : List Row :=
  let all_fires_df := get_provincial_fires env.firesResp
  let provincial_load := provincial_load_of all_fires_df
  DISTRICTS.map fun cd =>
    fetch_city_data cd.1 cd.2.1 cd.2.2 all_fires_df provincial_load (env.now cd.1)
      (env.owResp cd.1) (env.omResp cd.1) (env.owmResp cd.1)

/-- Embeds `.dt.floor('H')` on a timestamp counted in seconds: the start
of the hour containing `t`. -/
def floor_hour (t : Nat) : Nat := t - t % 3600

/-- Embeds the normalization step of `run_pipeline` (main_sql.py, line
165): every row's timestamp is floored to the hour. -/
def normalize_timestamps (batch : List Row) : List Row :=
  batch.map fun r => { r with timestamp := floor_hour r.timestamp }

/-- The deduplication key of a row: (timestamp, district) — the primary
key of the `smog_metrics` table. -/
def rowKey (r : Row) : Nat × String := (r.timestamp, r.district)

/-- Whether a key is already present in a table. -/
def keyMem (k : Nat × String) (table : List Row) : Bool :=
  table.any fun r => decide (rowKey r = k)

/-- One row of the insert-select with `ON CONFLICT (timestamp, district)
DO NOTHING` (main_sql.py, lines 178-188): the row is appended unless its
key already exists (including keys inserted earlier in the same
statement). -/
def mergeStep (table : List Row) (r : Row) : List Row :=
  if keyMem (rowKey r) table then table else table ++ [r]

/-- The whole insert-select: fold `mergeStep` over the staging rows in
order. -/
def merge_into (table staging : List Row) : List Row :=
  staging.foldl mergeStep table

/-- The database state: the transient staging table and the permanent
table. -/
structure Store where
  smog_staging : List Row
  smog_metrics : List Row

/-- Embeds the persistence phase of `run_pipeline` (main_sql.py, lines
154-193): if the batch is empty the run exits without touching the
store; otherwise the normalized batch replaces the staging table in
full, then is merged into `smog_metrics` with conflicting keys skipped. -/
def run_pipeline (env : PipelineEnv) (st : Store) : Store :=
  let batch_data := run_pipeline_batch env
  if batch_data.isEmpty then st
  else
    let df := normalize_timestamps batch_data
    { smog_staging := df
      smog_metrics := merge_into st.smog_metrics df }

/-- Number of rows of a table carrying a given hour timestamp. -/
def countHour (H : Nat) (rows : List Row) : Nat :=
  (rows.filter fun r => decide (r.timestamp = H)).length

/-- Embeds the binning of `add_wind_cardinals` (app.py, lines 590-596):
`pd.cut` over bins [0, 45, 90, 135, 180, 225, 270, 315, 360] with the
default right-closed intervals and `include_lowest=True`, so the bins
are [0, 45], (45, 90], (90, 135], ..., (315, 360]; a value outside
[0, 360] falls in no bin (`none`, pandas NaN). -/
def wind_cardinal (x : ℚ) : Option String :=
  if 0 ≤ x ∧ x ≤ 45 then some "N"
  else if 45 < x ∧ x ≤ 90 then some "NE"
  else if 90 < x ∧ x ≤ 135 then some "E"
  else if 135 < x ∧ x ≤ 180 then some "SE"
  else if 180 < x ∧ x ≤ 225 then some "S"
  else if 225 < x ∧ x ≤ 270 then some "SW"
  else if 270 < x ∧ x ≤ 315 then some "W"
  else if 315 < x ∧ x ≤ 360 then some "NW"
  else none

/-- Embeds `add_wind_cardinals` applied to the wind_dir column: the
cardinal label computed for each value. -/
def add_wind_cardinals (wind_dirs : List ℚ) : List (Option String) :=
  wind_dirs.map wind_cardinal

/-- The wind_speed_10m value a primary-provider response carries, if
any: what the variable `wind_spd` holds right after the primary attempt. -/
def primWindSpd (r : PrimaryWindResp) : Option ℚ :=
  match r with
  | some sd => sd.1
  | none => none

@[simp]
lemma fetch_city_data_timestamp (c : String) (la lo : ℚ) (fs : List FireDetection) (pl : ℚ)
    (now : Nat) (ow : ParticulateResp) (om : Nat → PrimaryWindResp) (owm : SecondaryWindResp) :
    (fetch_city_data c la lo fs pl now ow om owm).timestamp = now := rfl

@[simp]
lemma fetch_city_data_district (c : String) (la lo : ℚ) (fs : List FireDetection) (pl : ℚ)
    (now : Nat) (ow : ParticulateResp) (om : Nat → PrimaryWindResp) (owm : SecondaryWindResp) :
    (fetch_city_data c la lo fs pl now ow om owm).district = c := rfl

@[simp]
lemma fetch_city_data_provincial_fire_load (c : String) (la lo : ℚ) (fs : List FireDetection)
    (pl : ℚ) (now : Nat) (ow : ParticulateResp) (om : Nat → PrimaryWindResp)
    (owm : SecondaryWindResp) :
    (fetch_city_data c la lo fs pl now ow om owm).provincial_fire_load = pl := rfl

lemma fetch_city_data_wind_speed (c : String) (la lo : ℚ) (fs : List FireDetection) (pl : ℚ)
    (now : Nat) (ow : ParticulateResp) (om : Nat → PrimaryWindResp) (owm : SecondaryWindResp) :
    (fetch_city_data c la lo fs pl now ow om owm).wind_speed =
      (if (windFetch om owm).spd = none then some 0 else (windFetch om owm).spd) := rfl

lemma fetch_city_data_wind_dir (c : String) (la lo : ℚ) (fs : List FireDetection) (pl : ℚ)
    (now : Nat) (ow : ParticulateResp) (om : Nat → PrimaryWindResp) (owm : SecondaryWindResp) :
    (fetch_city_data c la lo fs pl now ow om owm).wind_dir =
      (if (windFetch om owm).dir = none then some 0 else (windFetch om owm).dir) := rfl

lemma default_zero_isSome (o : Option ℚ) :
    (if o = none then some (0 : ℚ) else o).isSome = true := by
  cases o <;> simp

lemma windFetch_secondaryConsulted (p : Nat → PrimaryWindResp) (s : SecondaryWindResp) :
    (windFetch p s).secondaryConsulted = (primWindSpd (p 0)).isNone := by
  unfold windFetch primWindSpd
  rcases hp : p 0 with _ | ⟨sp, dr⟩
  · rcases s with _ | ⟨a, b⟩ <;> simp [hp]
  · rcases sp with _ | v
    · rcases s with _ | ⟨a, b⟩ <;> simp [hp]
    · simp [hp]

/-- C2: for every completed cycle, every configured district contributes
exactly one row to the batch, in registry order, whatever every provider
did (including total failure): the batch's district column equals the
registry's name column and the batch row count equals the district
count, 42. -/
theorem C2_one_row_per_district (env : PipelineEnv) :
    (run_pipeline_batch env).map Row.district = DISTRICTS.map Prod.fst ∧
    (run_pipeline_batch env).length = DISTRICTS.length ∧
    DISTRICTS.length = 42 := by
  refine ⟨?_, by simp [run_pipeline_batch], rfl⟩
  simp only [run_pipeline_batch, List.map_map]
  exact List.map_congr_left fun cd _ => rfl

/-- C9: within one cycle every row of the batch carries the same
provincial fire load — the scalar computed once from the cycle's fire
fetch and passed through to each row unchanged. -/
theorem C9_provincial_load_broadcast (env : PipelineEnv) :
    ((run_pipeline_batch env).all fun r =>
      decide (r.provincial_fire_load =
        provincial_load_of (get_provincial_fires env.firesResp))) = true := by
  rw [List.all_eq_true]
  intro r hr
  simp only [run_pipeline_batch] at hr
  obtain ⟨cd, _, rfl⟩ := List.mem_map.mp hr
  simp

/-- C4: when the particulate call and both wind sources all fail, the
returned row still exists (the collection is a total function) and has
pm2_5 = null, pm10 = null, wind_speed = 0.0, wind_dir = 0.0; moreover
for every possible combination of provider responses the returned row's
wind_speed and wind_dir are never null. -/
theorem C4_null_safety :
    (∀ (c : String) (la lo : ℚ) (fs : List FireDetection) (pl : ℚ) (now : Nat),
      (fetch_city_data c la lo fs pl now none (fun _ => none) none).pm2_5 = none ∧
      (fetch_city_data c la lo fs pl now none (fun _ => none) none).pm10 = none ∧
      (fetch_city_data c la lo fs pl now none (fun _ => none) none).wind_speed = some 0 ∧
      (fetch_city_data c la lo fs pl now none (fun _ => none) none).wind_dir = some 0) ∧
    (∀ (c : String) (la lo : ℚ) (fs : List FireDetection) (pl : ℚ) (now : Nat)
       (ow : ParticulateResp) (om : Nat → PrimaryWindResp) (owm : SecondaryWindResp),
      (fetch_city_data c la lo fs pl now ow om owm).wind_speed.isSome = true ∧
      (fetch_city_data c la lo fs pl now ow om owm).wind_dir.isSome = true) := by
  constructor
  · intro c la lo fs pl now
    exact ⟨rfl, rfl, rfl, rfl⟩
  · intro c la lo fs pl now ow om owm
    rw [fetch_city_data_wind_speed, fetch_city_data_wind_dir]
    exact ⟨default_zero_isSome _, default_zero_isSome _⟩

/-- C5: the normalization step floors every row's timestamp to the start
of its hour (every normalized timestamp is a multiple of 3600 seconds),
and the two sample instants 10:05:00 and 10:59:59 both floor to
10:00:00. -/
theorem C5_timestamp_flooring :
    (∀ batch : List Row,
      ((normalize_timestamps batch).all fun r => r.timestamp % 3600 == 0) = true) ∧
    floor_hour (10 * 3600 + 5 * 60) = 10 * 3600 ∧
    floor_hour (10 * 3600 + 59 * 60 + 59) = 10 * 3600 := by
  refine ⟨?_, by decide, by decide⟩
  intro batch
  rw [List.all_eq_true]
  intro r hr
  simp only [normalize_timestamps] at hr
  obtain ⟨s, _, rfl⟩ := List.mem_map.mp hr
  simp only [Nat.beq_eq_true_eq, floor_hour]
  omega

/-- C3 counterexample: the claim asserts a wind_direction_deg of 45.0
maps to "NE" and that 360 falls in the first bin "N"; the code's
`pd.cut` bins are right-closed, so 45.0 maps to "N" and 360 maps to
"NW". -/
theorem C3_counterexample :
    wind_cardinal 45 ≠ some "NE" ∧ wind_cardinal 360 ≠ some "N" := by
  constructor <;> decide

/-- C3 amended: the consumer's cardinal bucketing uses eight
45-degree-wide sectors with an inclusive upper bound (and the first
sector additionally includes its lower bound 0): 0 maps to "N", 44.9
maps to "N", 45.0 still maps to "N", 45.1 maps to "NE", and 360 falls
in the last bin "NW" rather than being treated as 0. -/
theorem C3_amended_upper_inclusive :
    wind_cardinal 0 = some "N" ∧ wind_cardinal 44.9 = some "N" ∧
    wind_cardinal 45 = some "N" ∧ wind_cardinal 45.1 = some "NE" ∧
    wind_cardinal 360 = some "NW" ∧
    add_wind_cardinals [0, 44.9, 45, 45.1, 360] =
      [some "N", some "N", some "N", some "NE", some "NW"] := by
  refine ⟨by decide, by norm_num [wind_cardinal], by decide, by norm_num [wind_cardinal],
    by decide, ?_⟩
  simp only [add_wind_cardinals, List.map]
  norm_num [wind_cardinal]

/-- C6: when the primary wind attempt yields nothing and the secondary
provider answers with speed s (m/s) and direction d (degrees), the
returned row's wind_speed is s * 3.6 (km/h) and its wind_dir is d
unchanged. -/
theorem C6_wind_fallback (c : String) (la lo : ℚ) (fs : List FireDetection) (pl : ℚ)
    (now : Nat) (ow : ParticulateResp) (om : Nat → PrimaryWindResp) (s d : ℚ)
    (h : om 0 = none) :
    (fetch_city_data c la lo fs pl now ow om (some (s, d))).wind_speed = some (s * 3.6) ∧
    (fetch_city_data c la lo fs pl now ow om (some (s, d))).wind_dir = some d := by
  have hw : windFetch om (some (s, d)) =
      { spd := some (s * 3.6), dir := some d, secondaryConsulted := true } := by
    simp [windFetch, h]
  rw [fetch_city_data_wind_speed, fetch_city_data_wind_dir, hw]
  simp

/-- Witness for C6 at the spec's sample input: primary fails, secondary
answers 5.0 m/s at 90 degrees, so the row has wind_speed 18.0 km/h and
wind_dir 90. -/
theorem C6_wind_fallback_witness :
    (fetch_city_data "Lahore" 31.5204 74.3587 [] 0 36300 none (fun _ => none)
      (some (5, 90))).wind_speed = some 18 ∧
    (fetch_city_data "Lahore" 31.5204 74.3587 [] 0 36300 none (fun _ => none)
      (some (5, 90))).wind_dir = some 90 := by
  have h := C6_wind_fallback "Lahore" 31.5204 74.3587 [] 0 36300 none
    (fun _ => none) 5 90 rfl
  have h36 : (5 : ℚ) * 3.6 = 18 := by norm_num
  exact ⟨by rw [h.1, h36], h.2⟩

/-- C7 counterexample: the claim asserts the primary wind provider is
retried (a small fixed number of attempts with backoff) before the
secondary is consulted. Here the first primary request fails while a
second request would have succeeded with speed 10 km/h, direction 180;
under the claimed policy the row would carry the primary's 10/180 and
the secondary would not be consulted, but the code issues no second
primary request: it consults the secondary immediately and takes its
converted values 5 m/s * 3.6 = 18 km/h at 90 degrees. -/
theorem C7_counterexample :
    (windFetch (fun i => if i = 0 then none else some (some 10, some 180))
      (some (5, 90))).spd = some 18 ∧
    (windFetch (fun i => if i = 0 then none else some (some 10, some 180))
      (some (5, 90))).dir = some 90 ∧
    (windFetch (fun i => if i = 0 then none else some (some 10, some 180))
      (some (5, 90))).secondaryConsulted = true := by
  refine ⟨?_, by decide, by decide⟩
  show some ((5 : ℚ) * 3.6) = some 18
  norm_num

/-- C7 amended: no external call is retried in place: the primary wind
provider is attempted exactly once per district — the wind outcome
depends only on the response to the first request, so any responses
later attempts would have received are ignored — and on a failed first
attempt the secondary provider is consulted exactly once, with no
backoff and no rate-limit-specific handling. -/
theorem C7_amended_single_attempt (p : Nat → PrimaryWindResp) (s : SecondaryWindResp) :
    windFetch p s = windFetch (fun _ => p 0) s := rfl

/-- C10: the secondary wind provider is consulted if and only if the
primary attempt produced no wind speed; in particular when the primary
returns a speed v but no direction, no fallback request is made and the
row keeps wind_speed v while wind_dir is defaulted to 0.0. -/
theorem C10_fallback_iff_no_speed :
    (∀ (p : Nat → PrimaryWindResp) (s : SecondaryWindResp),
      ((windFetch p s).secondaryConsulted = true ↔ primWindSpd (p 0) = none)) ∧
    (∀ (c : String) (la lo : ℚ) (fs : List FireDetection) (pl : ℚ) (now : Nat)
       (ow : ParticulateResp) (p : Nat → PrimaryWindResp) (s : SecondaryWindResp) (v : ℚ),
      p 0 = some (some v, none) →
      (windFetch p s).secondaryConsulted = false ∧
      (fetch_city_data c la lo fs pl now ow p s).wind_speed = some v ∧
      (fetch_city_data c la lo fs pl now ow p s).wind_dir = some 0) := by
  constructor
  · intro p s
    rw [windFetch_secondaryConsulted, Option.isNone_iff_eq_none]
  · intro c la lo fs pl now ow p s v h
    have hw : windFetch p s =
        { spd := some v, dir := none, secondaryConsulted := false } := by
      simp [windFetch, h]
    rw [fetch_city_data_wind_speed, fetch_city_data_wind_dir, hw]
    simp

/-- Witness for C10: with a primary response carrying speed 7 km/h and a
null direction, the secondary is not consulted, wind_speed stays 7 and
wind_dir is defaulted to 0. -/
theorem C10_fallback_iff_no_speed_witness :
    (windFetch (fun _ => some (some 7, none)) (some (5, 90))).secondaryConsulted = false ∧
    (fetch_city_data "Multan" 30.1575 71.5249 [] 0 36300 none
      (fun _ => some (some 7, none)) (some (5, 90))).wind_speed = some 7 ∧
    (fetch_city_data "Multan" 30.1575 71.5249 [] 0 36300 none
      (fun _ => some (some 7, none)) (some (5, 90))).wind_dir = some 0 :=
  C10_fallback_iff_no_speed.2 "Multan" 30.1575 71.5249 [] 0 36300 none
    (fun _ => some (some 7, none)) (some (5, 90)) 7 rfl

/-- C8: assuming the upstream feed only ever flags a detection "l"
(low), "n" (nominal) or "h" (high), the fire fetch keeps exactly the
nominal/high detections: every returned detection is flagged nominal or
high, and every low-flagged detection of the input is absent from the
returned set. -/
theorem C8_confidence_filter (df : List FireDetection)
    (h : (df.all fun f =>
      f.confidence == "l" || f.confidence == "n" || f.confidence == "h") = true) :
    ((get_provincial_fires (some df)).all fun f =>
      f.confidence == "n" || f.confidence == "h") = true ∧
    ((df.filter fun f => f.confidence == "l").all fun f =>
      (get_provincial_fires (some df)).all fun g => !(decide (g = f))) = true := by
  rw [List.all_eq_true] at h
  constructor
  · rw [List.all_eq_true]
    intro f hf
    simp only [get_provincial_fires, List.mem_filter, Bool.not_eq_eq_eq_not,
      Bool.not_true, beq_eq_false_iff_ne] at hf
    have hcases := h f hf.1
    simp only [Bool.or_eq_true, beq_iff_eq] at hcases ⊢
    rcases hcases with (hl | hn) | hh
    · exact absurd hl hf.2
    · exact Or.inl hn
    · exact Or.inr hh
  · rw [List.all_eq_true]
    intro f hf
    rw [List.all_eq_true]
    intro g hg
    simp only [List.mem_filter, beq_iff_eq] at hf
    simp only [get_provincial_fires, List.mem_filter, Bool.not_eq_eq_eq_not,
      Bool.not_true, beq_eq_false_iff_ne] at hg
    simp only [Bool.not_eq_eq_eq_not, Bool.not_true, decide_eq_false_iff_not]
    intro hgf
    exact hg.2 (hgf ▸ hf.2)

/-- Witness for C8: a two-detection feed with one low and one high flag;
the fetch keeps only the high one and drops the low one. -/
theorem C8_confidence_filter_witness :
    ((get_provincial_fires
        (some [⟨31, 74, "l", 5⟩, ⟨32, 73, "h", 7⟩])).all fun f =>
      f.confidence == "n" || f.confidence == "h") = true ∧
    (([⟨31, 74, "l", 5⟩, (⟨32, 73, "h", 7⟩ : FireDetection)].filter fun f =>
        f.confidence == "l").all fun f =>
      (get_provincial_fires
        (some [⟨31, 74, "l", 5⟩, ⟨32, 73, "h", 7⟩])).all fun g => !(decide (g = f))) = true :=
  C8_confidence_filter [⟨31, 74, "l", 5⟩, ⟨32, 73, "h", 7⟩] (by decide)

lemma keyMem_append (k : Nat × String) (t : List Row) (r : Row) :
    keyMem k (t ++ [r]) = (keyMem k t || decide (rowKey r = k)) := by
  simp [keyMem]

lemma keyMem_mergeStep_of (k : Nat × String) (t : List Row) (r : Row)
    (h : keyMem k t = true) : keyMem k (mergeStep t r) = true := by
  unfold mergeStep
  split
  · exact h
  · rw [keyMem_append, h, Bool.true_or]

lemma keyMem_merge_into_of (k : Nat × String) (t s : List Row)
    (h : keyMem k t = true) : keyMem k (merge_into t s) = true := by
  induction s generalizing t with
  | nil => exact h
  | cons a as ih =>
    simp only [merge_into, List.foldl_cons]
    exact ih (mergeStep t a) (keyMem_mergeStep_of k t a h)

lemma keyMem_mergeStep_self (t : List Row) (r : Row) :
    keyMem (rowKey r) (mergeStep t r) = true := by
  unfold mergeStep
  by_cases h : keyMem (rowKey r) t = true
  · simp [h]
  · simp only [Bool.not_eq_true] at h
    simp [h, keyMem_append]

lemma keyMem_merge_into_of_mem (t s : List Row) (r : Row) (h : r ∈ s) :
    keyMem (rowKey r) (merge_into t s) = true := by
  induction s generalizing t with
  | nil => cases h
  | cons a as ih =>
    simp only [merge_into, List.foldl_cons]
    rcases List.mem_cons.mp h with rfl | hmem
    · exact keyMem_merge_into_of _ _ _ (keyMem_mergeStep_self t r)
    · exact ih (mergeStep t a) hmem

lemma merge_into_noop (t s : List Row) (h : ∀ r ∈ s, keyMem (rowKey r) t = true) :
    merge_into t s = t := by
  induction s generalizing t with
  | nil => rfl
  | cons a as ih =>
    simp only [merge_into, List.foldl_cons]
    have ha : mergeStep t a = t := by
      rw [mergeStep, if_pos (h a (List.mem_cons_self a as))]
    rw [ha]
    exact ih t (fun r hr => h r (List.mem_cons_of_mem a hr))

lemma run_pipeline_batch_ne_nil (env : PipelineEnv) :
    (run_pipeline_batch env).isEmpty = false := rfl

lemma run_pipeline_smog_metrics (env : PipelineEnv) (st : Store) :
    (run_pipeline env st).smog_metrics
      = merge_into st.smog_metrics (normalize_timestamps (run_pipeline_batch env)) := by
  simp [run_pipeline, run_pipeline_batch_ne_nil env]

lemma normalize_mem_key (env : PipelineEnv) (r : Row)
    (h : r ∈ normalize_timestamps (run_pipeline_batch env)) :
    ∃ cd ∈ DISTRICTS, rowKey r = (floor_hour (env.now cd.1), cd.1) := by
  simp only [normalize_timestamps, run_pipeline_batch, List.mem_map] at h
  obtain ⟨r0, ⟨cd, hcd, rfl⟩, rfl⟩ := h
  exact ⟨cd, hcd, by simp [rowKey]⟩

lemma key_mem_normalized_batch (env : PipelineEnv) (cd : String × ℚ × ℚ)
    (hcd : cd ∈ DISTRICTS) :
    ∃ r ∈ normalize_timestamps (run_pipeline_batch env),
      rowKey r = (floor_hour (env.now cd.1), cd.1) := by
  simp only [normalize_timestamps, run_pipeline_batch]
  exact ⟨_, List.mem_map_of_mem _ (List.mem_map_of_mem _ hcd), by simp [rowKey]⟩

/-- C1: running the pipeline a second time within the same clock hour
(every district's two wall-clock stamps floor to the same hour) against
the store the first run produced is a no-op on the permanent table: the
second run's staging batch is written and merged, but every one of its
(timestamp, district) keys already exists, so the insert-select skips
every row — the permanent table is unchanged, hence the row count for
every hour is the same as after one run. -/
theorem C1_idempotent_rerun (env1 env2 : PipelineEnv) (st : Store)
    (h : ∀ c : String, floor_hour (env1.now c) = floor_hour (env2.now c)) :
    (run_pipeline env2 (run_pipeline env1 st)).smog_metrics
      = (run_pipeline env1 st).smog_metrics ∧
    ∀ H : Nat,
      countHour H (run_pipeline env2 (run_pipeline env1 st)).smog_metrics
        = countHour H (run_pipeline env1 st).smog_metrics := by
  have hmain : (run_pipeline env2 (run_pipeline env1 st)).smog_metrics
      = (run_pipeline env1 st).smog_metrics := by
    rw [run_pipeline_smog_metrics env2, run_pipeline_smog_metrics env1]
    apply merge_into_noop
    intro r hr
    obtain ⟨cd, hcd, hkey⟩ := normalize_mem_key env2 r hr
    obtain ⟨r1, hr1, hkey1⟩ := key_mem_normalized_batch env1 cd hcd
    have hk : keyMem (rowKey r1) (merge_into st.smog_metrics
        (normalize_timestamps (run_pipeline_batch env1))) = true :=
      keyMem_merge_into_of_mem _ _ _ hr1
    have hkk : rowKey r1 = rowKey r := by rw [hkey, hkey1, h cd.1]
    rw [← hkk]
    exact hk
  exact ⟨hmain, fun H => by rw [hmain]⟩

/-- Witness for C1: a first run at 10:05:00 followed by a second run at
10:59:59 (same clock hour) over an initially empty store leaves the
permanent table exactly as the first run left it. -/
theorem C1_idempotent_rerun_witness :
    (run_pipeline ⟨none, fun _ => none, fun _ _ => none, fun _ => none, fun _ => 39599⟩
        (run_pipeline ⟨none, fun _ => none, fun _ _ => none, fun _ => none, fun _ => 36300⟩
          ⟨[], []⟩)).smog_metrics
      = (run_pipeline ⟨none, fun _ => none, fun _ _ => none, fun _ => none, fun _ => 36300⟩
          ⟨[], []⟩).smog_metrics :=
  (C1_idempotent_rerun
    ⟨none, fun _ => none, fun _ _ => none, fun _ => none, fun _ => 36300⟩
    ⟨none, fun _ => none, fun _ _ => none, fun _ => none, fun _ => 39599⟩
    ⟨[], []⟩ (fun _ => (by decide : floor_hour 36300 = floor_hour 39599))).1
